import Mathlib

/-!
Shallow embedding of the browser-session core of the
`n8n-nodes-brightdata-modified` repository:

* `AriaSnapshotFilter` (source `AriaSnapshotFilter.ts`): a pure text
  transform parsing a Playwright accessibility dump into interactive
  elements and rendering a compact listing.
* `BrowserSession` (source `BrowserSession.ts`): per-domain session
  registry, connection/page acquisition, locator resolution, snapshot
  capture and close.

JavaScript strings are modelled as Lean `String`/`List Char` (one `Char`
per UTF-16 unit of the source; all inputs of interest are ASCII), the JS
`Map`/`Set` objects by association lists / lists observed only through
lookup and membership, and the asynchronous driver (Playwright) by an
explicit environment record carrying the outcome of each external call.
Fallible operations return `Except String`.
-/

/-- JS whitespace test used by `String.prototype.trim`, the regex class
`\s`, and `split(/\s+/)`: modelled for the ASCII whitespace characters
(the Unicode space classes never occur in the inputs considered here). -/
def isJsWs (c : Char) : Bool :=
  c = ' ' || c = '\t' || c = '\n' || c = '\r' || c = '\x0b' || c = '\x0c'

/-- `s.trim()` on the character list: remove leading and trailing
whitespace. -/
def jsTrimL (cs : List Char) : List Char :=
  ((cs.dropWhile isJsWs).reverse.dropWhile isJsWs).reverse

/-- `s.trim()` on strings. -/
def jsTrimS (s : String) : String :=
  ⟨jsTrimL s.data⟩

/-- `text.startsWith(pat)`: does `cs` begin with the pattern `pat`? -/
def leadsWith : List Char → List Char → Bool
  | [], _ => true
  | _ :: _, [] => false
  | p :: ps, c :: cs => p = c && leadsWith ps cs

/-- `s.startsWith(pat)` on strings. -/
def leadsWithS (pat s : String) : Bool :=
  leadsWith pat.data s.data

/-- `text.split('\n')`: split on newline separators, keeping empty
segments (JS semantics: `""` splits to `[""]`). -/
def splitOnNl : List Char → List (List Char)
  | [] => [[]]
  | c :: cs =>
    if c = '\n' then [] :: splitOnNl cs
    else
      match splitOnNl cs with
      | [] => [[c]]
      | l :: ls => (c :: l) :: ls

/-- `array.join(sep)` for JS arrays of strings. -/
def joinWith (sep : String) : List String → String
  | [] => ""
  | [a] => a
  | a :: b :: rest => a ++ sep ++ joinWith sep (b :: rest)

/-- JS truthiness of an optional string parameter: `undefined` and the
empty string are falsy, every other string is truthy. -/
def truthy : Option String → Bool
  | none => false
  | some s => s ≠ ""

namespace AriaSnapshotFilter

/-- Element record produced by the snapshot filter and the DOM scan
(source type `SnapshotElement`: `url` is `string | null`). -/
structure SnapshotElement where
  ref : String
  role : String
  name : String
  url : Option String
deriving Repr, DecidableEq

/-- The fixed allow-list `INTERACTIVE_ROLES` (a JS `Set`, observed only
through membership). -/
def INTERACTIVE_ROLES : List String :=
  ["button", "link", "textbox", "searchbox", "combobox", "checkbox",
   "radio", "switch", "slider", "tab", "menuitem", "option"]

/-- First match of the regex `\[ref=([^\]]+)\]` in a line: scan start
positions left to right; at a position where the literal `[ref=` begins,
succeed when at least one character other than `]` follows and a closing
`]` exists after the captured run, otherwise keep scanning (the engine
retries later start positions after a failed attempt). -/
def findRefAnnot : List Char → Option (List Char)
  | [] => none
  | c :: cs =>
    if leadsWith ['[', 'r', 'e', 'f', '='] (c :: cs) then
      let after := (c :: cs).drop 5
      let cap := after.takeWhile (fun ch => ch ≠ ']')
      if 0 < cap.length ∧ cap.length < after.length then some cap
      else findRefAnnot cs
    else findRefAnnot cs

/-- ASCII letter test for the regex class `[a-zA-Z]`. -/
def isAsciiLetter (c : Char) : Bool :=
  ('a' ≤ c && c ≤ 'z') || ('A' ≤ c && c ≤ 'Z')

/-- Match of the anchored regex `^-\s+([a-zA-Z]+)` on a trimmed line:
a leading `-`, then at least one whitespace character, then the maximal
nonempty run of ASCII letters, which is the captured role. -/
def roleOf : List Char → Option (List Char)
  | '-' :: rest =>
    let w := rest.takeWhile isJsWs
    let t := rest.dropWhile isJsWs
    if 0 < w.length then
      let letters := t.takeWhile isAsciiLetter
      if 0 < letters.length then some letters else none
    else none
  | _ => none

/-- First match of the regex `"([^"]*)"`: the (possibly empty) run
between the first double quote and the next one; no match without a
closing quote. The source uses the empty name when there is no match. -/
def quotedName (cs : List Char) : List Char :=
  let after := (cs.dropWhile (fun c => c ≠ '"')).drop 1
  let cap := after.takeWhile (fun c => c ≠ '"')
  if cap.length < after.length then cap else []

/-- One global pass of `replace(/^["']|["']$/g, '')`: strip one leading
quote character if present, then one trailing quote character if one
remains at a later position of the original string. -/
def stripQuotes (cs : List Char) : List Char :=
  let t :=
    match cs with
    | c :: rest => if c = '"' || c = '\x27' then rest else cs
    | [] => []
  match t.reverse with
  | [] => []
  | d :: ds => if d = '"' || d = '\x27' then ds.reverse else t

/-- First match of the regex `\/url:\s*(.+)` followed by the source's
`.trim()` of the capture: after the first occurrence of the literal
`/url:` with a nonempty remainder, the capture group (under greedy
`\s*` with backtracking) always trims to the trimmed remainder; then
surrounding quotes are stripped. Empty remainders fail the match, and a
failed first occurrence (only possible at end of line) has no later
occurrence to retry. -/
def urlAnnot : List Char → Option (List Char)
  | [] => none
  | c :: cs =>
    if leadsWith ['/', 'u', 'r', 'l', ':'] (c :: cs) then
      let rest := (c :: cs).drop 5
      if 0 < rest.length then some (stripQuotes (jsTrimL rest))
      else urlAnnot cs
    else urlAnnot cs

/-- One iteration of the `for (const line of lines)` loop of
`parsePlaywrightSnapshot`: `none` when the line is skipped.  Note the
source computes the index of the following line as
`lines.indexOf(line) + 1`, i.e. from the index of the FIRST occurrence
of the line's text, not the loop position. -/
def parseLine (lines : List (List Char)) (line : List Char) : Option SnapshotElement :=
  let trimmed := jsTrimL line
  if trimmed.isEmpty || !(leadsWith ['-'] trimmed) then none
  else
    match findRefAnnot trimmed with
    | none => none
    | some refCs =>
      match roleOf trimmed with
      | none => none
      | some roleCs =>
        if !(INTERACTIVE_ROLES.contains (String.mk roleCs)) then none
        else
          let name := quotedName trimmed
          let nextLineIndex := lines.indexOf line + 1
          let url : Option (List Char) :=
            if nextLineIndex < lines.length then
              urlAnnot (lines.getD nextLineIndex [])
            else none
          some ⟨String.mk refCs, String.mk roleCs, String.mk name, url.map String.mk⟩

/-- `AriaSnapshotFilter.parsePlaywrightSnapshot`: split the dump into
lines and collect, in order, the element produced by each line that
passes every filter of the loop body. -/
def parsePlaywrightSnapshot (snapshotText : String) : List SnapshotElement :=
  let lines := splitOnNl snapshotText.data
  lines.filterMap (parseLine lines)

/-- One iteration of the `formatCompact` loop: build the `parts` array
(`[ref]`, role, optional quoted name truncated past 60 characters,
optional `-> url` truncated past 50 characters and suppressed for
fragment-only links) and join with single spaces. -/
def formatCompactLine (el : SnapshotElement) : String :=
  let parts : List String := ["[" ++ el.ref ++ "]", el.role]
  let parts :=
    if el.name ≠ "" ∧ 0 < el.name.length then
      let name := if 60 < el.name.length then ⟨el.name.data.take 57⟩ ++ "..." else el.name
      parts ++ ["\"" ++ name ++ "\""]
    else parts
  let parts :=
    match el.url with
    | some u =>
      if u ≠ "" ∧ 0 < u.length ∧ !(leadsWithS "#" u) then
        let url := if 50 < u.length then (⟨u.data.take 47⟩ : String) ++ "..." else u
        parts ++ ["-> " ++ url]
      else parts
    | none => parts
  joinWith " " parts

/-- `AriaSnapshotFilter.formatCompact`: one rendered line per element,
joined with newlines. -/
def formatCompact (elements : List SnapshotElement) : String :=
  joinWith "\n" (elements.map formatCompactLine)

/-- `AriaSnapshotFilter.filterSnapshot`: parse, answer with the fixed
sentence when nothing interactive was found, otherwise render.  The
source wraps the body in `try/catch`, but both steps are total pure
functions (they are total Lean functions here), so the catch arm is
unreachable and the operation always returns a plain string. -/
def filterSnapshot (snapshotText : String) : String :=
  let elements := parsePlaywrightSnapshot snapshotText
  if elements.length = 0 then "No interactive elements found"
  else formatCompact elements

/-- `AriaSnapshotFilter.formatDomElements`: like `formatCompact` but
`null` for a missing or empty element list, with the role falling back
to `unknown` when empty. -/
def formatDomElements (elements : Option (List SnapshotElement)) : Option String :=
  match elements with
  | none => none
  | some els =>
    if els.length = 0 then none
    else
      some (joinWith "\n" (els.map (fun el =>
        formatCompactLine { el with role := if el.role = "" then "unknown" else el.role })))

end AriaSnapshotFilter

/-- Decidable equality for `Except`, used to evaluate concrete runs of
the fallible session operations. -/
instance {ε α : Type} [DecidableEq ε] [DecidableEq α] : DecidableEq (Except ε α) := fun a b =>
  match a, b with
  | .ok x, .ok y =>
    if h : x = y then .isTrue (by rw [h]) else .isFalse (by intro hc; cases hc; exact h rfl)
  | .error x, .error y =>
    if h : x = y then .isTrue (by rw [h]) else .isFalse (by intro hc; cases hc; exact h rfl)
  | .ok _, .error _ => .isFalse (by intro hc; cases hc)
  | .error _, .ok _ => .isFalse (by intro hc; cases hc)

namespace BrowserSession

open AriaSnapshotFilter

/-- The per-domain record `DomainSession` of the source: connection and
page handles (driver objects modelled by numeric ids, `null` by `none`),
the staleness flag `browserClosed`, and the request log (a JS `Map` from
request to response-or-null, modelled by its entries in insertion
order). -/
structure DomainSession where
  browser : Option Nat
  page : Option Nat
  browserClosed : Bool
  requests : List (Nat × Option Nat)
deriving Repr, DecidableEq

/-- The session a missing registry entry is initialised to. -/
def emptySession : DomainSession :=
  { browser := none, page := none, browserClosed := true, requests := [] }

/-- Mutable fields of the `BrowserSession` object: the registry
`domainSessions` (a JS `Map` keyed by domain, modelled by an association
list in insertion order), the ambient `currentDomain`, and the active
DOM-ref set `domRefs` (a JS `Set`, modelled by a list observed through
membership). -/
structure SessionState where
  domainSessions : List (String × DomainSession)
  currentDomain : String
  domRefs : List String
deriving Repr, DecidableEq

/-- `Map.get` on the registry. -/
def lookupSession (m : List (String × DomainSession)) (d : String) : Option DomainSession :=
  (m.find? (fun p => p.1 = d)).map (fun p => p.2)

/-- `Map.set` on the registry: replace in place, or append a new entry. -/
def setSession : List (String × DomainSession) → String → DomainSession → List (String × DomainSession)
  | [], d, s => [(d, s)]
  | (k, v) :: rest, d, s =>
    if k = d then (d, s) :: rest else (k, v) :: setSession rest d s

/-- `Map.delete` on the registry. -/
def removeSession (m : List (String × DomainSession)) (d : String) : List (String × DomainSession) :=
  m.filter (fun p => p.1 ≠ d)

/-- `getDomainSession`: return the domain's session, creating an empty
disconnected one on first access. -/
def getDomainSession (st : SessionState) (d : String) : DomainSession × SessionState :=
  match lookupSession st.domainSessions d with
  | some s => (s, st)
  | none => (emptySession, { st with domainSessions := setSession st.domainSessions d emptySession })

/-- Outcome of the external driver calls made during one acquire, the
suspension points of `getBrowser`/`getPage`:
`probeOk` is whether `browser.contexts()` (the liveness probe) succeeds
on an existing handle; `connectResult` the outcome (fresh handle id or
error) of `chromium.connectOverCDP`; `contexts` what `browser.contexts()`
then returns, each context listed with the ids of its open pages; and
`newPageId` the id a `newPage()` call would assign. -/
structure Env where
  probeOk : Bool
  connectResult : Except String Nat
  contexts : List (List Nat)
  newPageId : Nat
deriving Repr, DecidableEq

/-- `getDomain`: `new URL(url).hostname`, with a parse failure caught
and mapped to the sentinel `"default"`.  URL parsing is external to this
core and is passed in as `parse` (returning `none` exactly when
`new URL` throws). -/
def getDomain (parse : String → Option String) (url : String) : String :=
  match parse url with
  | some host => host
  | none => "default"

/-- `getBrowser` on one domain session.  Returns the call's outcome
(handle id or propagated connect error), the session as mutated by the
call, and how many new connections the call opened.  The probe runs only
when a handle exists; a failed probe nulls both handles and marks the
session stale; a fresh connection is opened only when no live handle
remains, and registers the `disconnected` observer whose body is
`onDisconnected` below. -/
def getBrowser (env : Env) (s : DomainSession) : Except String Nat × DomainSession × Nat :=
  let s1 :=
    match s.browser with
    | some _ =>
      if env.probeOk then s
      else { s with browser := none, page := none, browserClosed := true }
    | none => s
  match s1.browser with
  | some b => (.ok b, s1, 0)
  | none =>
    match env.connectResult with
    | .ok nb => (.ok nb, { s1 with browser := some nb, browserClosed := false }, 1)
    | .error e => (.error e, s1, 0)

/-- Body of the `disconnected` observer registered by `getBrowser`:
clears the connection handle, the page handle, and the health flag. -/
def onDisconnected (s : DomainSession) : DomainSession :=
  { s with browser := none, page := none, browserClosed := true }

/-- The body of `getPage` after the `currentDomain` update: fetch or
create the current domain's session, and when that session is stale or
has no page, acquire a connection and then a page, preferring the first
page of the first existing context, else a fresh page.  Returns the
outcome and the whole mutated `BrowserSession` state. -/
def getPageAt (env : Env) (st : SessionState) : Except String Nat × SessionState :=
  let domain := st.currentDomain
  let (session, st2) := getDomainSession st domain
  match session.page, session.browserClosed with
  | some p, false => (.ok p, st2)
  | _, _ =>
    match getBrowser env session with
    | (.error e, s1, _) =>
      (.error e, { st2 with domainSessions := setSession st2.domainSessions domain s1 })
    | (.ok _, s1, _) =>
      let (pid, s2) :=
        match env.contexts with
        | [] => (env.newPageId, { s1 with page := some env.newPageId })
        | pages0 :: _ =>
          match pages0 with
          | [] => (env.newPageId, { s1 with page := some env.newPageId })
          | p :: _ => (p, { s1 with page := some p })
      let s3 := { s2 with browserClosed := false }
      (.ok pid, { st2 with domainSessions := setSession st2.domainSessions domain s3 })

/-- `getPage`: re-aim `currentDomain` from the url when one is supplied
(skipped for a falsy url, i.e. `undefined` or the empty string), then
run the acquisition body on the resulting state. -/
def getPage (parse : String → Option String) (env : Env) (url : Option String)
    (st : SessionState) : Except String Nat × SessionState :=
  let st1 :=
    match url with
    | some u => if u ≠ "" then { st with currentDomain := getDomain parse u } else st
    | none => st
  getPageAt env st1

/-- How a resolved locator addresses its element: the source builds
either `page.locator('[data-fastmcp-ref="<ref>"]').first()`, or
`page.locator('aria-ref=<ref>')`, or `page.locator(selector)`. -/
inductive LocatorStrategy where
  | domQueryFirst (dataSelector : String)
  | ariaRef (ref : String)
  | css (selector : String)
deriving Repr, DecidableEq

/-- The handle returned by `getLocator`: the page it addresses, the
addressing strategy, and the purely diagnostic `describe` label. -/
structure Locator where
  pageId : Nat
  strategy : LocatorStrategy
  label : String
deriving Repr, DecidableEq

/-- The branch cascade of `getLocator` after the page is in hand
(`if (ref) ... if (selector) ... throw`): a truthy ref is trimmed and
resolved by data-attribute query when it carries the `dom-` prefix or is
in the active DOM-ref set, else by accessibility ref; a truthy selector
is used only when the ref is falsy; otherwise the call fails. -/
def locatorFor (st : SessionState) (pid : Nat) (element : String)
    (ref selector : Option String) : Except String Locator :=
  if truthy ref then
    let trimmedRef := jsTrimS (ref.getD "")
    if leadsWithS "dom-" trimmedRef || st.domRefs.contains trimmedRef then
      .ok ⟨pid, .domQueryFirst ("[data-fastmcp-ref=\"" ++ trimmedRef ++ "\"]"), element⟩
    else
      .ok ⟨pid, .ariaRef trimmedRef, element⟩
  else if truthy selector then
    .ok ⟨pid, .css (selector.getD ""), element⟩
  else
    .error "Either ref or selector is required to locate an element"

/-- `getLocator`: the source's first statement is
`const page = await this.getPage()`, so every call performs one page
acquisition before any input validation; the third component counts the
`getPage` invocations the call performed.  A failed acquisition
propagates its error. -/
def getLocator (parse : String → Option String) (env : Env) (element : String)
    (ref selector : Option String) (st : SessionState) :
    Except String Locator × SessionState × Nat :=
  match getPage parse env none st with
  | (.error e, st1) => (.error e, st1, 1)
  | (.ok pid, st1) => (locatorFor st1 pid element ref selector, st1, 1)

end BrowserSession

namespace BrowserSession

open AriaSnapshotFilter

/-- Outcome of the external calls made during one `captureSnapshot`:
the `getPage` environment, what `page._snapshotForAI()` yields, what
`page.url()` and `await page.title()` yield, and the structured return
value of the in-page `page.evaluate` DOM scan (the ClickabilityScanner
run, which happens entirely inside the remote page). -/
structure SnapEnv where
  pageEnv : Env
  snapshotForAI : Except String String
  pageUrl : String
  titleResult : Except String String
  domScan : Except String (List SnapshotElement)
deriving Repr

/-- The object `captureSnapshot` resolves with.  The unfiltered path
leaves `domSnapshot` out of the object and `formatDomElements` may
return `null`; both are modelled as `none`. -/
structure SnapshotResult where
  url : String
  title : String
  ariaSnapshot : String
  domSnapshot : Option String
deriving Repr, DecidableEq

/-- The error wrapper of `captureSnapshot`'s catch arm. -/
def wrapSnapshotError (e : String) : String :=
  "Error capturing ARIA snapshot: " ++ e

/-- The `try` block of `captureSnapshot`, entered with the page in
hand: dump the accessibility tree; on the unfiltered path return it
raw; on the filtered path run the snapshot filter, run the DOM scan,
replace the active DOM-ref set with exactly this scan's refs (the `Set`
is observed only through membership, so it is modelled by the ref
list), and return both renderings.  Every failure inside the block is
wrapped by `wrapSnapshotError`.  Note the ref-set replacement precedes
the `await page.title()` of the result object. -/
def captureBody (env : SnapEnv) (filtered : Bool) (st : SessionState) :
    Except String SnapshotResult × SessionState :=
  match env.snapshotForAI with
  | .error e => (.error (wrapSnapshotError e), st)
  | .ok fullSnapshot =>
    if !filtered then
      match env.titleResult with
      | .error e => (.error (wrapSnapshotError e), st)
      | .ok t => (.ok ⟨env.pageUrl, t, fullSnapshot, none⟩, st)
    else
      let filteredSnapshot := filterSnapshot fullSnapshot
      match env.domScan with
      | .error e => (.error (wrapSnapshotError e), st)
      | .ok domSnapshot =>
        let st1 := { st with domRefs := domSnapshot.map (fun el => el.ref) }
        match env.titleResult with
        | .error e => (.error (wrapSnapshotError e), st1)
        | .ok t =>
          (.ok ⟨env.pageUrl, t, filteredSnapshot, formatDomElements (some domSnapshot)⟩, st1)

/-- `captureSnapshot`: the source acquires the page with
`const page = await this.getPage()` BEFORE entering the `try` block, so
a page-acquisition failure propagates to the caller unwrapped; every
later failure goes through the catch arm. -/
def captureSnapshot (parse : String → Option String) (env : SnapEnv) (filtered : Bool)
    (st : SessionState) : Except String SnapshotResult × SessionState :=
  match getPage parse env.pageEnv none st with
  | (.error e, st1) => (.error e, st1)
  | (.ok _, st1) => captureBody env filtered st1

/-- Connection handles released by the bulk-close loop: the loop calls
`browser.close()` exactly on the sessions holding a handle. -/
def releaseAll (m : List (String × DomainSession)) : List Nat :=
  m.filterMap (fun p => p.2.browser)

/-- `close`: with a truthy domain argument, the body runs only under
`if (session?.browser)` — the entry is closed, cleaned and REMOVED only
when it exists and holds a connection handle, otherwise the call leaves
the whole state untouched; with a falsy domain argument (absent or the
empty string) every held connection is closed, the registry is cleared
wholesale and `currentDomain` is reset to the `'default'` sentinel.
The second component lists the connection handles on which
`browser.close()` was invoked. -/
def close (st : SessionState) (domain : Option String) : SessionState × List Nat :=
  if truthy domain then
    let d := domain.getD ""
    match lookupSession st.domainSessions d with
    | some s =>
      match s.browser with
      | some b =>
        ({ st with domainSessions := removeSession st.domainSessions d }, [b])
      | none => (st, [])
    | none => (st, [])
  else
    ({ st with domainSessions := [], currentDomain := "default" },
      releaseAll st.domainSessions)

end BrowserSession

namespace SnapshotFilterSpec

open AriaSnapshotFilter

/-- Spec-side name truncation, from the claim's words "name truncated to
60 characters" as the source realises it (57 characters plus ellipsis
past 60). -/
def truncName60 (name : String) : String :=
  if 60 < name.length then (⟨name.data.take 57⟩ : String) ++ "..." else name

/-- Spec-side url truncation, from "url truncated to 50 characters". -/
def truncUrl50 (url : String) : String :=
  if 50 < url.length then (⟨url.data.take 47⟩ : String) ++ "..." else url

/-- Spec-side rendering of one element, written from the claim's words:
one line `[ref] role "name" -> url`, the name segment omitted when the
name is absent, the url segment omitted when the url is absent or a
same-page fragment link. -/
def renderLineSpec (el : SnapshotElement) : String :=
  joinWith " "
    (["[" ++ el.ref ++ "]", el.role]
      ++ (if el.name = "" then [] else ["\"" ++ truncName60 el.name ++ "\""])
      ++ (match el.url with
          | none => []
          | some u => if u = "" ∨ leadsWithS "#" u then [] else ["-> " ++ truncUrl50 u]))

end SnapshotFilterSpec

open AriaSnapshotFilter BrowserSession

/-! Concrete fixtures used by witnesses and counterexamples. -/

/-- Fixture: a healthy session holding connection 1 and page 2. -/
def liveSession : DomainSession :=
  { browser := some 1, page := some 2, browserClosed := false, requests := [] }

/-- Fixture: a registry holding only the default domain's live session. -/
def stLive : SessionState :=
  { domainSessions := [("default", liveSession)], currentDomain := "default", domRefs := [] }

/-- Fixture: a URL parser that rejects every input (so every url is
unparseable, as `new URL` on malformed input). -/
def noParse : String → Option String := fun _ => none

/-- Fixture: a driver environment whose probe succeeds and whose first
context already has page 2 open. -/
def envIdle : Env :=
  { probeOk := true, connectResult := .ok 7, contexts := [[2]], newPageId := 9 }

/-- Fixture: a registry whose only session belongs to domain `x.example`,
which is also the ambient current domain. -/
def stX : SessionState :=
  { domainSessions := [("x.example", liveSession)], currentDomain := "x.example", domRefs := [] }

/-- Fixture: a driver environment whose CDP connect attempt is refused. -/
def envConnFail : Env :=
  { probeOk := true, connectResult := .error "connect failed", contexts := [], newPageId := 9 }

/-- Fixture: an empty registry. -/
def stEmpty : SessionState :=
  { domainSessions := [], currentDomain := "default", domRefs := [] }

/-- Fixture: a capture whose page acquisition fails at the connect step. -/
def snapEnvFail : SnapEnv :=
  { pageEnv := envConnFail, snapshotForAI := .ok "- text", pageUrl := "u",
    titleResult := .ok "t", domScan := .ok [] }

/-- Fixture: a capture whose accessibility dump fails inside the try
block. -/
def snapEnvBoom : SnapEnv :=
  { pageEnv := envIdle, snapshotForAI := .error "boom", pageUrl := "u",
    titleResult := .ok "t", domScan := .ok [] }

/-- Fixture: a filtered capture whose DOM scan returns one element. -/
def snapEnvScan1 : SnapEnv :=
  { pageEnv := envIdle, snapshotForAI := .ok "", pageUrl := "u",
    titleResult := .ok "t", domScan := .ok [⟨"dom-1", "button", "A", some ""⟩] }

/-- Fixture: a filtered capture whose DOM scan returns two elements. -/
def snapEnvScan2 : SnapEnv :=
  { pageEnv := envIdle, snapshotForAI := .ok "", pageUrl := "u",
    titleResult := .ok "t",
    domScan := .ok [⟨"dom-2", "link", "B", none⟩, ⟨"dom-3", "a", "C", none⟩] }

/-- Fixture: a disconnected session whose request log is nonempty. -/
def deadSession : DomainSession :=
  { browser := none, page := none, browserClosed := true, requests := [(5, none)] }

/-- Fixture: a registry holding only `a.example`, already disconnected. -/
def stDead : SessionState :=
  { domainSessions := [("a.example", deadSession)], currentDomain := "a.example", domRefs := [] }

/-! Helper lemmas shared by several claims. -/

/-- A nonempty string is exactly one of positive length. -/
theorem strNeEmptyIffLen (s : String) : (s ≠ "") ↔ 0 < s.length := by
  cases s with
  | mk data =>
    cases data with
    | nil => simp [String.length]
    | cons c cs =>
      constructor
      · intro _
        simp [String.length, Nat.succ_pos]
      · intro _ hc
        have : (c :: cs : List Char) = [] := congrArg String.data hc
        cases this

/-- Unfolding `joinWith` on a list of at least two strings. -/
theorem joinWith_two (sep a b : String) (l : List String) :
    joinWith sep (a :: b :: l) = a ++ sep ++ joinWith sep (b :: l) := rfl

/-- The rendering the source loop produces for one element coincides
with the claim-side rendering. -/
theorem fmtline_eq (el : SnapshotElement) :
    formatCompactLine el = SnapshotFilterSpec.renderLineSpec el := by
  unfold formatCompactLine SnapshotFilterSpec.renderLineSpec
  unfold SnapshotFilterSpec.truncName60 SnapshotFilterSpec.truncUrl50
  by_cases hn : el.name = ""
  · cases hu : el.url with
    | none => simp [hn]
    | some u =>
      by_cases hu1 : u = ""
      · simp [hn, hu1]
      · by_cases hu2 : leadsWithS "#" u
        · simp [hn, hu1, hu2]
        · simp [hn, hu1, hu2, (strNeEmptyIffLen u).mp hu1]
  · have hlen := (strNeEmptyIffLen el.name).mp hn
    cases hu : el.url with
    | none => simp [hn, hlen]
    | some u =>
      by_cases hu1 : u = ""
      · simp [hn, hlen, hu1]
      · by_cases hu2 : leadsWithS "#" u
        · simp [hn, hlen, hu1, hu2]
        · simp [hn, hlen, hu1, hu2, (strNeEmptyIffLen u).mp hu1]

/-- Truncated names never exceed 60 characters. -/
theorem truncName60_le (s : String) : (SnapshotFilterSpec.truncName60 s).length ≤ 60 := by
  unfold SnapshotFilterSpec.truncName60
  split
  · rw [String.length_append]
    have h1 : (⟨s.data.take 57⟩ : String).length = min 57 s.data.length := by
      show (s.data.take 57).length = _
      simp
    have h2 : ("..." : String).length = 3 := rfl
    have h3 : min 57 s.data.length ≤ 57 := Nat.min_le_left _ _
    omega
  · omega

/-- Truncated urls never exceed 50 characters. -/
theorem truncUrl50_le (u : String) : (SnapshotFilterSpec.truncUrl50 u).length ≤ 50 := by
  unfold SnapshotFilterSpec.truncUrl50
  split
  · rw [String.length_append]
    have h1 : (⟨u.data.take 47⟩ : String).length = min 47 u.data.length := by
      show (u.data.take 47).length = _
      simp
    have h2 : ("..." : String).length = 3 := rfl
    have h3 : min 47 u.data.length ≤ 47 := Nat.min_le_left _ _
    omega
  · omega

/-- A joined parts list whose head starts with `[` yields a string
starting with `[`. -/
theorem joinWith_head (sep : String) (a b : String) (l : List String) (t : List Char)
    (h : a.data = '[' :: t) : ∃ u, (joinWith sep (a :: b :: l)).data = '[' :: u := by
  rw [joinWith_two]
  refine ⟨t ++ sep.data ++ (joinWith sep (b :: l)).data, ?_⟩
  simp [String.data_append, h]

/-- Every rendered element line starts with `[`. -/
theorem fmtline_head (el : SnapshotElement) :
    ∃ u, (formatCompactLine el).data = '[' :: u := by
  have hp : ("[" ++ el.ref ++ "]").data = '[' :: (el.ref.data ++ [']']) := by
    simp [String.data_append, show ("[" : String).data = ['['] from rfl,
      show ("]" : String).data = [']'] from rfl]
  rw [fmtline_eq]
  unfold SnapshotFilterSpec.renderLineSpec
  simp only [List.cons_append, List.nil_append]
  exact joinWith_head _ _ _ _ _ hp

/-- A nonempty element list never renders to the no-elements sentence. -/
theorem formatCompact_ne_sentinel (els : List SnapshotElement) (h : els ≠ []) :
    formatCompact els ≠ "No interactive elements found" := by
  match els with
  | [] => exact absurd rfl h
  | e :: rest =>
    obtain ⟨u, hu⟩ := fmtline_head e
    intro hc
    have hdata := congrArg String.data hc
    have hsent : ("No interactive elements found").data =
        'N' :: ("o interactive elements found").data := rfl
    match rest with
    | [] =>
      have h1 : (formatCompact [e]).data = '[' :: u := hu
      rw [h1, hsent] at hdata
      have := List.head_eq_of_cons_eq hdata
      exact absurd this (by decide)
    | r :: rs =>
      have h1 : (formatCompact (e :: r :: rs)).data =
          '[' :: (u ++ ("\n").data ++
            (joinWith "\n" (formatCompactLine r :: rs.map formatCompactLine)).data) := by
        show ((formatCompactLine e ++ "\n") ++
          joinWith "\n" (formatCompactLine r :: rs.map formatCompactLine)).data = _
        simp [String.data_append, hu]
      rw [h1, hsent] at hdata
      have := List.head_eq_of_cons_eq hdata
      exact absurd this (by decide)

/-- `getPageAt` never touches the active DOM-ref set or the ambient
current domain. -/
theorem getPageAt_keeps (env : Env) (st : SessionState) :
    ((getPageAt env st).2).domRefs = st.domRefs ∧
    ((getPageAt env st).2).currentDomain = st.currentDomain := by
  unfold getPageAt getDomainSession
  cases hl : lookupSession st.domainSessions st.currentDomain with
  | some s =>
    simp only [hl]
    split
    · exact ⟨rfl, rfl⟩
    · split <;> exact ⟨rfl, rfl⟩
  | none =>
    simp only [hl]
    split
    · exact ⟨rfl, rfl⟩
    · split <;> exact ⟨rfl, rfl⟩

/-- A pattern is its own prefix in any extension. -/
theorem leadsWith_self_append (p r : List Char) : leadsWith p (p ++ r) = true := by
  induction p with
  | nil => rfl
  | cons c cs ih => simp [leadsWith, ih]

/-- Deleting a registry key makes its lookup miss. -/
theorem lookup_remove_self (m : List (String × DomainSession)) (d : String) :
    lookupSession (removeSession m d) d = none := by
  induction m with
  | nil => rfl
  | cons p rest ih =>
    unfold removeSession at *
    rw [List.filter_cons]
    by_cases hk : p.1 = d
    · rw [if_neg (by simp [hk])]
      exact ih
    · rw [if_pos (by simp [hk])]
      unfold lookupSession
      rw [List.find?_cons_of_neg _ (by simp [hk])]
      exact ih

/-- Deleting one registry key leaves every other key's lookup intact. -/
theorem lookup_remove_ne (m : List (String × DomainSession)) (d d2 : String) (h : d2 ≠ d) :
    lookupSession (removeSession m d) d2 = lookupSession m d2 := by
  induction m with
  | nil => rfl
  | cons p rest ih =>
    unfold removeSession at *
    rw [List.filter_cons]
    by_cases hk : p.1 = d
    · have hk2 : p.1 ≠ d2 := by rw [hk]; exact fun he => h he.symm
      rw [if_neg (by simp [hk])]
      rw [ih]
      unfold lookupSession
      rw [List.find?_cons_of_neg _ (by simp [hk2])]
    · rw [if_pos (by simp [hk])]
      by_cases hk2 : p.1 = d2
      · unfold lookupSession
        rw [List.find?_cons_of_pos _ (by simp [hk2]), List.find?_cons_of_pos _ (by simp [hk2])]
      · unfold lookupSession at *
        rw [List.find?_cons_of_neg _ (by simp [hk2]), List.find?_cons_of_neg _ (by simp [hk2])]
        exact ih

/-! Claim theorems. -/

/-- Claim C1 (amended).  A `getLocator` call with neither `ref` nor
`selector` fails with the locator-input-missing error, but only AFTER a
page acquisition: the source's first statement is
`const page = await this.getPage()`, so one `getPage` invocation (the
third component of the result) always precedes the validation, and a
failing acquisition propagates its own error instead. -/
theorem claim_C1_amended (parse : String → Option String) (env : Env) (element : String)
    (st : SessionState) :
    (∀ p st1, getPage parse env none st = (.ok p, st1) →
      getLocator parse env element none none st =
        (.error "Either ref or selector is required to locate an element", st1, 1)) ∧
    (∀ e st1, getPage parse env none st = (.error e, st1) →
      getLocator parse env element none none st = (.error e, st1, 1)) := by
  constructor
  · intro p st1 h
    unfold getLocator
    rw [h]
    simp [locatorFor, truthy]
  · intro e st1 h
    unfold getLocator
    rw [h]

/-- Claim C1, counterexample to the claim as stated: on a live session,
`getLocator` without ref and selector does raise the
locator-input-missing error, but the page-acquisition count of the call
is 1, not 0 — the page is acquired before the error is raised, refuting
"performs no page access". -/
theorem claim_C1_counterexample :
    getLocator noParse envIdle "el" none none stLive =
      (.error "Either ref or selector is required to locate an element", stLive, 1) ∧
    (1 : Nat) ≠ 0 := by
  exact ⟨by decide, by decide⟩

/-- Claim C1, witness instantiating the amended theorem on a live
session. -/
theorem claim_C1_witness :
    getLocator noParse envIdle "button" none none stLive =
      (.error "Either ref or selector is required to locate an element", stLive, 1) :=
  (claim_C1_amended noParse envIdle "button" stLive).1 2 stLive (by decide)

/-- Claim C2 (amended).  During `captureSnapshot`, any exception raised
AFTER the page is in hand (accessibility dump, DOM scan, title
retrieval; the filtering step is total and cannot throw) reaches the
caller as the single wrapped capture error, and an `Except` result
carries no partial snapshot alongside the error; but an exception
during the page acquisition itself propagates unwrapped, because the
source's `await this.getPage()` sits outside the `try` block. -/
theorem claim_C2_amended (parse : String → Option String) (env : SnapEnv) (filtered : Bool)
    (st : SessionState) :
    (∀ e st1, getPage parse env.pageEnv none st = (.error e, st1) →
      captureSnapshot parse env filtered st = (.error e, st1)) ∧
    (∀ p st1 e st2, getPage parse env.pageEnv none st = (.ok p, st1) →
      captureSnapshot parse env filtered st = (.error e, st2) →
      leadsWithS "Error capturing ARIA snapshot: " e = true) := by
  constructor
  · intro e st1 h
    unfold captureSnapshot
    rw [h]
  · intro p st1 e st2 hpage hcap
    unfold captureSnapshot at hcap
    rw [hpage] at hcap
    have key : ∀ e2, e = wrapSnapshotError e2 →
        leadsWithS "Error capturing ARIA snapshot: " e = true := by
      intro e2 he
      subst he
      unfold wrapSnapshotError leadsWithS
      rw [String.data_append]
      exact leadsWith_self_append _ _
    unfold captureBody at hcap
    cases hs : env.snapshotForAI with
    | error e2 =>
      rw [hs] at hcap
      obtain ⟨h1, _⟩ := by simpa using hcap
      exact key e2 h1.symm
    | ok full =>
      rw [hs] at hcap
      cases filtered with
      | false =>
        simp only [Bool.not_false, if_true] at hcap
        cases ht : env.titleResult with
        | error e2 =>
          rw [ht] at hcap
          obtain ⟨h1, _⟩ := by simpa using hcap
          exact key e2 h1.symm
        | ok t => rw [ht] at hcap; simp at hcap
      | true =>
        simp only [Bool.not_true, if_false] at hcap
        cases hd : env.domScan with
        | error e2 =>
          rw [hd] at hcap
          obtain ⟨h1, _⟩ := by simpa using hcap
          exact key e2 h1.symm
        | ok els =>
          rw [hd] at hcap
          cases ht : env.titleResult with
          | error e2 =>
            rw [ht] at hcap
            obtain ⟨h1, _⟩ := by simpa using hcap
            exact key e2 h1.symm
          | ok t => rw [ht] at hcap; simp at hcap

/-- Claim C2, counterexample to the claim as stated: when the page
acquisition fails at the connect step, the caller receives the raw
driver error, which does not carry the capture-step wrapper — refuting
"any exception ... including page acquisition ... receives a single
wrapped descriptive error identifying the capture step". -/
theorem claim_C2_counterexample :
    (captureSnapshot noParse snapEnvFail true stEmpty).1 = .error "connect failed" ∧
    leadsWithS "Error capturing ARIA snapshot" "connect failed" = false := by
  exact ⟨by decide, by decide⟩

/-- Claim C2, witness: a failing accessibility dump on a live session
yields the wrapped error. -/
theorem claim_C2_witness :
    leadsWithS "Error capturing ARIA snapshot: " (wrapSnapshotError "boom") = true :=
  (claim_C2_amended noParse snapEnvBoom true stLive).2 2 stLive
    (wrapSnapshotError "boom") stLive (by decide) (by decide)

/-- Claim C3 (amended).  Closing a non-empty domain argument removes
that domain's registry entry (its request log and handles go with it)
and leaves every other domain's lookup unchanged — but ONLY when the
entry exists and holds a connection handle; when the entry is missing
or its connection handle is null the call is a no-op on the whole state
(the entry is not removed and its request log survives).  Closing with
no domain argument closes every held connection, empties the registry
wholesale and resets the current domain to the `default` sentinel.
(The source reaches the bulk branch for any falsy argument, hence the
non-empty hypothesis on the single-domain part.) -/
theorem claim_C3_amended (st : SessionState) (d : String) (hd : d ≠ "") :
    (∀ s b, lookupSession st.domainSessions d = some s → s.browser = some b →
      close st (some d) =
        ({ st with domainSessions := removeSession st.domainSessions d }, [b]) ∧
      lookupSession (removeSession st.domainSessions d) d = none ∧
      (∀ d2, d2 ≠ d → lookupSession (removeSession st.domainSessions d) d2 =
        lookupSession st.domainSessions d2)) ∧
    (∀ s, lookupSession st.domainSessions d = some s → s.browser = none →
      close st (some d) = (st, [])) ∧
    (lookupSession st.domainSessions d = none → close st (some d) = (st, [])) ∧
    close st none =
      ({ st with domainSessions := [], currentDomain := "default" },
        releaseAll st.domainSessions) := by
  have htr : truthy (some d) = true := by simp [truthy, hd]
  refine ⟨?_, ?_, ?_, rfl⟩
  · intro s b hs hb
    refine ⟨?_, lookup_remove_self _ _, fun d2 h2 => lookup_remove_ne _ _ _ h2⟩
    unfold close
    rw [htr, if_pos rfl]
    dsimp only [Option.getD]
    rw [hs]
    dsimp only
    rw [hb]
  · intro s hs hb
    unfold close
    rw [htr, if_pos rfl]
    dsimp only [Option.getD]
    rw [hs]
    dsimp only
    rw [hb]
  · intro hs
    unfold close
    rw [htr, if_pos rfl]
    dsimp only [Option.getD]
    rw [hs]

/-- Claim C3, counterexample to the claim as stated: closing a domain
whose session is disconnected (null connection handle) but still holds
a nonempty request log leaves the registry entry — and the log —
exactly in place, refuting "clears the request log, and removes D's
registry entry". -/
theorem claim_C3_counterexample :
    close stDead (some "a.example") = (stDead, []) ∧
    lookupSession (close stDead (some "a.example")).1.domainSessions "a.example" =
      some deadSession ∧
    deadSession.requests ≠ [] := by
  exact ⟨by decide, by decide, by decide⟩

/-- Claim C3, witness instantiating the amended theorem on a live
session. -/
theorem claim_C3_witness :
    close stLive (some "default") =
      ({ stLive with domainSessions := removeSession stLive.domainSessions "default" }, [1]) ∧
    lookupSession (removeSession stLive.domainSessions "default") "default" = none :=
  have h := (claim_C3_amended stLive "default" (by decide)).1 liveSession 1 (by decide) (by decide)
  ⟨h.1, h.2.1⟩

/-- Claim C4 (confirmed).  A successful filtered capture replaces the
active DOM-ref set with exactly the refs of that capture's DOM scan,
so after two consecutive filtered captures the set holds the second
scan's refs and nothing else — refs never accumulate across
snapshots. -/
theorem claim_C4 (parse : String → Option String) (env1 env2 : SnapEnv) (st st1 st2 : SessionState)
    (r1 r2 : SnapshotResult) (els1 els2 : List SnapshotElement)
    (hscan1 : env1.domScan = .ok els1) (hscan2 : env2.domScan = .ok els2)
    (h1 : captureSnapshot parse env1 true st = (.ok r1, st1))
    (h2 : captureSnapshot parse env2 true st1 = (.ok r2, st2)) :
    st1.domRefs = els1.map (fun el => el.ref) ∧
    st2.domRefs = els2.map (fun el => el.ref) ∧
    (∀ x, x ∈ st2.domRefs ↔ x ∈ els2.map (fun el => el.ref)) := by
  have step : ∀ (env : SnapEnv) (sa sb : SessionState) (r : SnapshotResult)
      (els : List SnapshotElement), env.domScan = .ok els →
      captureSnapshot parse env true sa = (.ok r, sb) →
      sb.domRefs = els.map (fun el => el.ref) := by
    intro env sa sb r els hscan h
    unfold captureSnapshot at h
    cases hp : getPage parse env.pageEnv none sa with
    | mk res stp =>
      rw [hp] at h
      cases res with
      | error e => simp at h
      | ok p =>
        unfold captureBody at h
        cases hs : env.snapshotForAI with
        | error e => rw [hs] at h; simp at h
        | ok full =>
          rw [hs] at h
          simp only [Bool.not_true, if_false] at h
          rw [hscan] at h
          cases ht : env.titleResult with
          | error e => rw [ht] at h; simp at h
          | ok t =>
            rw [ht] at h
            obtain ⟨-, h2⟩ := by simpa using h
            rw [← h2]
  have ha := step env1 st st1 r1 els1 hscan1 h1
  have hb := step env2 st1 st2 r2 els2 hscan2 h2
  exact ⟨ha, hb, fun x => by rw [hb]⟩

/-- Claim C4, witness: two concrete consecutive filtered captures on a
live session end with the ref set of the second scan only. -/
theorem claim_C4_witness :
    ({ stLive with domRefs := ["dom-1"] } : SessionState).domRefs = ["dom-1"] ∧
    ({ stLive with domRefs := ["dom-2", "dom-3"] } : SessionState).domRefs = ["dom-2", "dom-3"] ∧
    ("dom-1" ∈ ({ stLive with domRefs := ["dom-2", "dom-3"] } : SessionState).domRefs ↔
      "dom-1" ∈ (["dom-2", "dom-3"] : List String)) := by
  have h := claim_C4 noParse snapEnvScan1 snapEnvScan2 stLive
    { stLive with domRefs := ["dom-1"] } { stLive with domRefs := ["dom-2", "dom-3"] }
    ⟨"u", "t", "No interactive elements found", some "[dom-1] button \"A\""⟩
    ⟨"u", "t", "No interactive elements found", some "[dom-2] link \"B\"\n[dom-3] a \"C\""⟩
    [⟨"dom-1", "button", "A", some ""⟩] [⟨"dom-2", "link", "B", none⟩, ⟨"dom-3", "a", "C", none⟩]
    rfl rfl (by decide) (by decide)
  exact ⟨h.1, h.2.1, h.2.2 "dom-1"⟩

/-- Claim C5 (amended).  When `getLocator` is given a NON-EMPTY ref and
the page acquisition succeeds, the trimmed ref resolves through the
data-attribute query (the `page.locator('[data-fastmcp-ref="…"]').first()`
path) exactly when it carries the reserved `dom-` prefix or sits in the
active DOM-ref set, and through the driver's `aria-ref=` addressing
otherwise; a supplied non-empty selector is used exactly when the ref is
absent OR the empty string — the source's `if (ref)` treats an empty
ref as not supplied, which is the one deviation from the claim as
stated. -/
theorem claim_C5_amended (parse : String → Option String) (env : Env) (element : String)
    (ref selector : Option String) (st : SessionState) (p : Nat) (st1 : SessionState)
    (hpage : getPage parse env none st = (.ok p, st1)) :
    (∀ r, ref = some r → r ≠ "" →
      (getLocator parse env element ref selector st).1 =
        (if leadsWithS "dom-" (jsTrimS r) || st.domRefs.contains (jsTrimS r) then
          .ok ⟨p, .domQueryFirst ("[data-fastmcp-ref=\"" ++ jsTrimS r ++ "\"]"), element⟩
        else
          .ok ⟨p, .ariaRef (jsTrimS r), element⟩)) ∧
    (∀ s, selector = some s → s ≠ "" → (ref = none ∨ ref = some "") →
      (getLocator parse env element ref selector st).1 = .ok ⟨p, .css s, element⟩) := by
  have hdr : st1.domRefs = st.domRefs := by
    have hk := (getPageAt_keeps env st).1
    have heq : getPage parse env none st = getPageAt env st := rfl
    rw [← heq, hpage] at hk
    exact hk
  constructor
  · intro r hr hne
    subst hr
    unfold getLocator
    rw [hpage]
    dsimp only
    unfold locatorFor
    have ht : truthy (some r) = true := by simp [truthy, hne]
    rw [ht, if_pos rfl]
    dsimp only [Option.getD]
    rw [hdr]
  · intro s hs hsne href
    subst hs
    unfold getLocator
    rw [hpage]
    dsimp only
    unfold locatorFor
    have ht : truthy ref = false := by
      rcases href with h | h <;> subst h <;> simp [truthy]
    have ht2 : truthy (some s) = true := by simp [truthy, hsne]
    rw [ht, ht2]
    simp

/-- Claim C5, counterexample to the claim as stated: with the empty
string supplied as ref (reachable, e.g. from `fillForm`, which passes
`field.ref` through unguarded) together with a selector, the source's
`if (ref)` skips the ref branch entirely and resolves the raw selector
— not the accessibility-ref path the claim prescribes for a supplied
ref outside the DOM-ref set, and a selector is used although a ref was
given. -/
theorem claim_C5_counterexample :
    (getLocator noParse envIdle "el" (some "") (some "div") stLive).1 =
      .ok ⟨2, .css "div", "el"⟩ ∧
    (getLocator noParse envIdle "el" (some "") (some "div") stLive).1 ≠
      .ok ⟨2, .ariaRef "", "el"⟩ := by
  exact ⟨by decide, by decide⟩

/-- Claim C5, witness: a padded accessibility ref outside the active set
resolves through the `aria-ref=` path after trimming. -/
theorem claim_C5_witness :
    (getLocator noParse envIdle "el2" (some " e7 ") none stLive).1 =
      .ok ⟨2, .ariaRef "e7", "el2"⟩ := by
  have h := (claim_C5_amended noParse envIdle "el2" (some " e7 ") none stLive 2 stLive
    (by decide)).1 " e7 " rfl (by decide)
  rw [h]
  decide

/-- Claim C6 (confirmed).  A successful `getBrowser` call returns either
the existing handle, and then its liveness probe succeeded and no new
connection was opened, or a handle freshly obtained from the connect
call — never a handle that failed its probe in the same call; at most
one new connection is opened per call; and the registered disconnect
observer clears the connection handle, the page handle, and the health
flag. -/
theorem claim_C6 (env : Env) (s : DomainSession) (b : Nat) (s1 : DomainSession) (k : Nat)
    (h : getBrowser env s = (.ok b, s1, k)) :
    k ≤ 1 ∧
    ((s.browser = some b ∧ env.probeOk = true ∧ k = 0) ∨
      (env.connectResult = .ok b ∧ k = 1 ∧ s1.browser = some b ∧ s1.browserClosed = false)) ∧
    (∀ t, (onDisconnected t).browser = none ∧ (onDisconnected t).page = none ∧
      (onDisconnected t).browserClosed = true) := by
  refine ⟨?_, ?_, fun t => ⟨rfl, rfl, rfl⟩⟩ <;>
  · unfold getBrowser at h
    cases hb : s.browser with
    | none =>
      simp only [hb] at h
      cases hc : env.connectResult with
      | ok nb =>
        simp only [hc] at h
        obtain ⟨h1, h2, h3⟩ := by simpa using h
        first
        | omega
        | (right; subst h1; subst h2; exact ⟨rfl, h3.symm, rfl, rfl⟩)
      | error e => simp [hc] at h
    | some b0 =>
      by_cases hp : env.probeOk
      · simp only [hb, hp, if_true] at h
        obtain ⟨h1, h2, h3⟩ := by simpa using h
        first
        | omega
        | (left; subst h1; subst h2; exact ⟨rfl, hp, h3.symm⟩)
      · simp only [hb, hp, if_false] at h
        cases hc : env.connectResult with
        | ok nb =>
          simp only [hc] at h
          obtain ⟨h1, h2, h3⟩ := by simpa using h
          first
          | omega
          | (right; subst h1; subst h2; exact ⟨rfl, h3.symm, rfl, rfl⟩)
        | error e => simp [hc] at h

/-- Claim C6, witness: a live session with a succeeding probe keeps its
handle with no new connection, and the disconnect observer clears all
three fields. -/
theorem claim_C6_witness :
    ((0 : Nat) ≤ 1 ∧
      (liveSession.browser = some 1 ∧ envIdle.probeOk = true ∧ (0 : Nat) = 0)) ∧
    (onDisconnected liveSession).browser = none ∧
    (onDisconnected liveSession).page = none ∧
    (onDisconnected liveSession).browserClosed = true := by
  have h := claim_C6 envIdle liveSession 1 liveSession 0 (by decide)
  refine ⟨⟨h.1, ?_⟩, h.2.2 liveSession⟩
  rcases h.2.1 with hl | hr
  · exact hl
  · cases hr.2.1

/-- Claim C7 (code bug at the url-attachment step).  On the spec's own
example the parser behaves as claimed: the line
`- button "Submit" [ref=e12]` followed by `/url: https://x.test/a`
yields the single element with that url attached.  But the source
locates "the following line" with `lines.indexOf(line) + 1`, the index
after the FIRST occurrence of the line's text: when the same candidate
line text occurs twice and only the second occurrence is followed by a
`/url:` annotation, both parsed elements get a null url, although the
claim (and the clear intent of the `nextLineIndex` variable) attaches
the url to the element whose immediately following line carries it. -/
theorem claim_C7 :
    parsePlaywrightSnapshot "- button \"Submit\" [ref=e12]\n/url: https://x.test/a" =
      [⟨"e12", "button", "Submit", some "https://x.test/a"⟩] ∧
    parsePlaywrightSnapshot
        "- button \"A\" [ref=e1]\n- button \"A\" [ref=e1]\n/url: https://x.test/a" =
      [⟨"e1", "button", "A", none⟩, ⟨"e1", "button", "A", none⟩] ∧
    (⟨"e1", "button", "A", none⟩ : SnapshotElement) ≠ ⟨"e1", "button", "A", some "https://x.test/a"⟩ := by
  exact ⟨by decide, by decide, by decide⟩

/-- Claim C8 (confirmed).  `formatCompact` renders one line per element,
each line being `[ref] role "name" -> url` with the segments joined by
single spaces, the name segment omitted when the name is absent, the
url segment omitted when the url is absent or a same-page fragment
link, and names and urls truncated to at most 60 and 50 characters; on
the fragment-link example the url segment is dropped. -/
theorem claim_C8 :
    (∀ els, formatCompact els = joinWith "\n" (els.map SnapshotFilterSpec.renderLineSpec)) ∧
    (∀ s, (SnapshotFilterSpec.truncName60 s).length ≤ 60) ∧
    (∀ u, (SnapshotFilterSpec.truncUrl50 u).length ≤ 50) ∧
    formatCompact [⟨"e1", "link", "Home", some "#top"⟩] = "[e1] link \"Home\"" := by
  refine ⟨?_, truncName60_le, truncUrl50_le, by decide⟩
  intro els
  unfold formatCompact
  congr 1
  exact List.map_congr_left (fun el _ => fmtline_eq el)

/-- Claim C8, witness: a concrete element rendered by the claim-side
line, and a concrete truncation bound. -/
theorem claim_C8_witness :
    formatCompact [⟨"e9", "button", "Go", some "https://z.test"⟩] =
      joinWith "\n" ([⟨"e9", "button", "Go", some "https://z.test"⟩].map
        SnapshotFilterSpec.renderLineSpec) ∧
    (SnapshotFilterSpec.truncName60 "abc").length ≤ 60 :=
  ⟨claim_C8.1 _, claim_C8.2.1 "abc"⟩

/-- Claim C9 (amended).  For every NON-EMPTY url string on which URL
parsing fails, `getPage` does not propagate the parse failure: the
`catch` in `getDomain` maps it to the `default` sentinel, the call
proceeds exactly as an acquisition on the state re-aimed at `default`,
and the resulting current domain is `default`.  For the empty string —
also unparseable — the source's `if (url)` skips the domain update
altogether and the previous current domain stays in force, the one
deviation from the claim as stated. -/
theorem claim_C9_amended (parse : String → Option String) (env : Env) (url : String)
    (st : SessionState) (hne : url ≠ "") (hparse : parse url = none) :
    getPage parse env (some url) st =
      getPage parse env none { st with currentDomain := "default" } ∧
    ((getPage parse env (some url) st).2).currentDomain = "default" := by
  have h1 : getPage parse env (some url) st =
      getPage parse env none { st with currentDomain := "default" } := by
    show getPageAt env (if url ≠ "" then { st with currentDomain := getDomain parse url } else st) =
      getPageAt env { st with currentDomain := "default" }
    rw [if_pos hne]
    unfold getDomain
    rw [hparse]
  refine ⟨h1, ?_⟩
  rw [h1]
  exact (getPageAt_keeps env { st with currentDomain := "default" }).2

/-- Claim C9, counterexample to the claim as stated: the empty string is
not parseable as a URL, yet `getPage` with it neither fails nor resets
the current domain to `default` — it proceeds on the previous current
domain `x.example`. -/
theorem claim_C9_counterexample :
    (getPage noParse envIdle (some "") stX).1 = .ok 2 ∧
    ((getPage noParse envIdle (some "") stX).2).currentDomain = "x.example" ∧
    ("x.example" : String) ≠ "default" := by
  exact ⟨by decide, by decide, by decide⟩

/-- Claim C9, witness: a concrete malformed non-empty url lands the call
on the `default` domain. -/
theorem claim_C9_witness :
    ((getPage noParse envIdle (some "http://%%%") stX).2).currentDomain = "default" :=
  (claim_C9_amended noParse envIdle "http://%%%" stX (by decide) rfl).2

/-- Claim C10 (confirmed).  `filterSnapshot` is a total function on
strings (its parse and format steps are total, so the source's catch
arm is unreachable): it returns the fixed sentence exactly when parsing
finds no interactive element, and the compact rendering of the parsed
elements otherwise. -/
theorem claim_C10 : ∀ text,
    (filterSnapshot text = "No interactive elements found" ↔
      parsePlaywrightSnapshot text = []) ∧
    (parsePlaywrightSnapshot text ≠ [] →
      filterSnapshot text = formatCompact (parsePlaywrightSnapshot text)) := by
  intro text
  unfold filterSnapshot
  constructor
  · constructor
    · intro h
      by_contra hne
      rw [if_neg (by simpa [List.length_eq_zero] using hne)] at h
      exact formatCompact_ne_sentinel _ hne h
    · intro h
      rw [if_pos (by simp [h])]
  · intro h
    rw [if_neg (by simpa [List.length_eq_zero] using h)]

/-- Claim C10, witness: the sentinel on an empty dump, and the rendering
equation on a one-button dump. -/
theorem claim_C10_witness :
    filterSnapshot "" = "No interactive elements found" ∧
    filterSnapshot "- button \"Go\" [ref=e1]" =
      formatCompact (parsePlaywrightSnapshot "- button \"Go\" [ref=e1]") :=
  ⟨(claim_C10 "").1.mpr (by decide), (claim_C10 "- button \"Go\" [ref=e1]").2 (by decide)⟩
